import Mathlib

/-!
Verification of the interactive story-creation wizard of `clubhouse-cli`
(`src/index.ts`): the workspace data model, the autocomplete choice
resolver, the question pipeline's option construction and defaults, the
validators, the submission handler and the session loop, shallowly
embedded as executable Lean definitions, with theorems checking the
specification's claims against them.
-/

namespace Clubhouse

/-- Modelled from the spec: `ITeam` is declared in the missing module
`./clubhouse`; spec §3 gives `Team = {id, name}`. -/
structure ITeam where
  id : Nat
  name : String
deriving DecidableEq

/-- Modelled from the spec: `IProject` is declared in the missing module
`./clubhouse`; spec §3 gives `Project = {id, name, team_id}`. -/
structure IProject where
  id : Nat
  name : String
  team_id : Nat
deriving DecidableEq

/-- Modelled from the spec: `IEpic = {id, name}` (spec §3). -/
structure IEpic where
  id : Nat
  name : String
deriving DecidableEq

/-- Modelled from the spec: a user's profile carries its display name
(spec §3, `User = {id, profile: {name}}`). -/
structure IProfile where
  name : String
deriving DecidableEq

/-- Modelled from the spec: `IUser = {id, profile: {name}}` (spec §3). -/
structure IUser where
  id : Nat
  profile : IProfile
deriving DecidableEq

/-- Modelled from the spec: `ILabel = {name}` (spec §3). -/
structure ILabel where
  name : String
deriving DecidableEq

/-- Modelled from the spec: `ICreateLabel` is the `{name}` object placed in
the creation request's `labels` collection (spec §3 / §4.3). -/
structure ICreateLabel where
  name : String
deriving DecidableEq

/-- Modelled from the spec: the configuration part of the session state,
`{token, defaultProjectId}` (spec §3). -/
structure IConfiguration where
  token : String
  defaultProjectId : Nat
deriving DecidableEq

/-- Modelled from the spec: `IClubhouseState` is the workspace snapshot
`{projects, epics, teams, users, sprints, configuration}` (spec §3). -/
structure IClubhouseState where
  projects : List IProject
  epics : List IEpic
  teams : List ITeam
  users : List IUser
  sprints : List ILabel
  configuration : IConfiguration
deriving DecidableEq

/-- An inquirer choice option: a display label and the value the prompt
yields when that option is selected (`ChoiceOption` of `inquirer`). -/
structure ChoiceOption (α : Type) where
  name : String
  value : α
deriving DecidableEq

/-- Embeds JavaScript `String.prototype.toLowerCase` (ASCII range), as used
by `getAutoCompleteChoices` and the slug lowering in `src/index.ts`. -/
def lowerChars (l : List Char) : List Char :=
  l.map Char.toLower

/-- Prefix test: `startsWithList needle hay` embeds "hay starts with needle"
on character lists. -/
def startsWithList : List Char → List Char → Bool
  | [], _ => true
  | _ :: _, [] => false
  | c :: cs, d :: ds => c == d && startsWithList cs ds

/-- Substring test: `infixOfList needle hay` embeds JavaScript
`String.prototype.includes`: needle occurs contiguously in hay. -/
def infixOfList (needle : List Char) : List Char → Bool
  | [] => startsWithList needle []
  | d :: t => startsWithList needle (d :: t) || infixOfList needle t

/-- The match predicate `item.name.toLowerCase().includes(input.toLowerCase())`
from `getAutoCompleteChoices` in `src/index.ts`. -/
def containsCI (name query : String) : Bool :=
  infixOfList (lowerChars query.toList) (lowerChars name.toList)

/-- The choice resolver `getAutoCompleteChoices(input, data)` of
`src/index.ts` (lines 169-177): absent input returns the data unchanged,
otherwise it filters to the case-insensitive substring matches. The
`Promise.resolve` wrapper is dropped (the function performs no suspension). -/
def getAutoCompleteChoices {α : Type} (input : Option String) (data : List (ChoiceOption α)) :
    List (ChoiceOption α) :=
  match input with
  | none => data
  | some q => data.filter (fun item => containsCI item.name q)

/-- The value carried by a project option: `project.id.toString()`
(`src/index.ts` line 38), i.e. the decimal representation of the id. -/
def projectChoiceValue (p : IProject) : String :=
  Nat.repr p.id

/-- One project option of the project prompt (`src/index.ts` lines 35-40):
label `"<project.name> (<team.name>)"` via `state.teams.find(...)`, value
the decimal id. `none` embeds the fault when the team lookup comes back
`undefined` and its `.name` is read. -/
def projectOptionOf (teams : List ITeam) (p : IProject) : Option (ChoiceOption String) :=
  (teams.find? (fun t => t.id == p.team_id)).map
    (fun t => { name := p.name ++ " (" ++ t.name ++ ")", value := projectChoiceValue p })

/-- Option list of the project prompt built left to right; the first
failing team lookup faults the whole construction. -/
def buildProjectOptions (teams : List ITeam) : List IProject → Option (List (ChoiceOption String))
  | [] => some []
  | p :: ps =>
    match projectOptionOf teams p with
    | none => none
    | some c => (buildProjectOptions teams ps).map (fun cs => c :: cs)

/-- The comparator `(p1, p2) => p1.team_id - p2.team_id` of the project
prompt: ascending, stable sort by `team_id` (JavaScript `Array.sort`). -/
def sortProjectsByTeamId (ps : List IProject) : List IProject :=
  ps.insertionSort (fun p q => p.team_id ≤ q.team_id)

/-- The project prompt's `source` function (`src/index.ts` lines 31-43).
JavaScript `Array.prototype.sort` sorts in place, so evaluating the source
also replaces `state.projects` with the sorted array: the embedding
returns the resolved choices together with the state after the call. -/
def projectSource (state : IClubhouseState) (input : Option String) :
    Option (List (ChoiceOption String)) × IClubhouseState :=
  let sorted := sortProjectsByTeamId state.projects
  ((buildProjectOptions state.teams sorted).map (getAutoCompleteChoices input),
   { state with projects := sorted })

/-- The epic prompt's `source` function (`src/index.ts` lines 54-60):
maps epics to options (value `epic.id.toString()`); mutates nothing. -/
def epicSource (state : IClubhouseState) (input : Option String) :
    List (ChoiceOption String) × IClubhouseState :=
  (getAutoCompleteChoices input
    (state.epics.map (fun e => { name := e.name, value := Nat.repr e.id })), state)

/-- The owner prompt's `source` function (`src/index.ts` lines 95-100):
user options (value `user.id`) with a prepended "Do not assign" option
whose value is `null`; `unshift` acts on the freshly mapped array, so the
state is untouched. -/
def ownerSource (state : IClubhouseState) (input : Option String) :
    List (ChoiceOption (Option Nat)) × IClubhouseState :=
  (getAutoCompleteChoices input
    ({ name := "Do not assign", value := none } ::
      state.users.map (fun u => { name := u.profile.name, value := some u.id })), state)

/-- The label prompt's `source` function (`src/index.ts` lines 106-118):
sprint options carrying `{name}` objects with an appended "No Label"
option whose value is `null`; `concat` copies, so the state is untouched. -/
def labelSource (state : IClubhouseState) (input : Option String) :
    List (ChoiceOption (Option ICreateLabel)) × IClubhouseState :=
  (getAutoCompleteChoices input
    ((state.sprints.map (fun lab => { name := lab.name, value := some { name := lab.name } })) ++
      [{ name := "No Label", value := none }]), state)

/-- JavaScript `Array.prototype.findIndex`: index of the first element
satisfying the predicate, `-1` when there is none. -/
def jsFindIndex {α : Type} (p : α → Bool) : List α → Int
  | [] => -1
  | a :: l =>
    if p a then 0
    else if jsFindIndex p l = -1 then -1 else jsFindIndex p l + 1

/-- The project prompt's `default` (`src/index.ts` line 44): evaluated when
the question list is built, over `state.projects` as currently stored —
before any source call sorts it. -/
def projectDefault (state : IClubhouseState) : Int :=
  jsFindIndex (fun p => p.id == state.configuration.defaultProjectId) state.projects

/-- Claim C1's reading of the default, following the spec's words: the
index of the matching project within the displayed option list, i.e.
within the projects sorted by `team_id`. Kept separate so it can be
compared against `projectDefault`, the embedding of the code. -/
def c1ClaimedDefault (state : IClubhouseState) : Int :=
  jsFindIndex (fun p => p.id == state.configuration.defaultProjectId)
    (sortProjectsByTeamId state.projects)

/-- Result of an inquirer `validate` callback: `true`, or a violation
message that re-displays the prompt. -/
inductive ValidationResult where
  | ok : ValidationResult
  | violation (msg : String) : ValidationResult
deriving DecidableEq

/-- The title prompt's `validate` (`src/index.ts` lines 66-70):
`isNullOrUndefined(input) || input.length < 5` fails, then
`input.length > 120` fails, else accepts. -/
def validateTitle (input : Option String) : ValidationResult :=
  match input with
  | none => .violation "Title should be more than 5 characters long"
  | some s =>
    if s.length < 5 then .violation "Title should be more than 5 characters long"
    else if s.length > 120 then .violation "Title should not be longer than 120 characters"
    else .ok

/-- The validated answers `res` collected by `inquirer.prompt`
(`src/index.ts` lines 122-131): `project` and `epic` carry option-value
strings, `owner` a user id or the null sentinel, `labels` a `{name}`
object or the null sentinel. -/
structure IAnswers where
  project : String
  epic : String
  title : String
  description : String
  storyType : String
  owner : Option Nat
  labels : Option ICreateLabel
deriving DecidableEq

/-- Digit-sequence value, MSD first: the accumulator fold used by base-10
integer parsing. -/
def digitsVal (l : List Char) : Nat :=
  l.foldl (fun acc c => acc * 10 + (c.toNat - Char.toNat (Char.ofNat 48))) 0

/-- Leading-digit run of a character list, as consumed by `parseInt`. -/
def parseNatPrefix (l : List Char) : Option Nat :=
  match l.takeWhile Char.isDigit with
  | [] => none
  | c :: rest => some (digitsVal (c :: rest))

/-- JavaScript `parseInt(s, 10)` (`src/index.ts` line 128): skip leading
spaces, take an optional sign, parse the longest leading digit run;
`none` embeds `NaN` when no digit follows. -/
def parseInt10 (s : String) : Option Int :=
  match s.toList.dropWhile (fun c => c == ' ') with
  | [] => none
  | c :: rest =>
    if c == '-' then (parseNatPrefix rest).map (fun m => -(Int.ofNat m))
    else if c == '+' then (parseNatPrefix rest).map Int.ofNat
    else (parseNatPrefix (c :: rest)).map Int.ofNat

/-- The story-creation request built from the answers (`src/index.ts`
lines 124-131): `owner_ids` and `labels` are `null` exactly on the null
sentinel, else singleton collections; `project_id` is `parseInt(res.project, 10)`
(`none` embeds `NaN`); `epic_id` is passed through as the option string. -/
structure ICreateStoryRequest where
  name : String
  description : String
  owner_ids : Option (List Nat)
  project_id : Option Int
  epic_id : String
  labels : Option (List ICreateLabel)
  story_type : String
deriving DecidableEq

/-- The request construction passed to `createStory` in the `.then`
continuation of `inquirer.prompt` (`src/index.ts` lines 124-131). -/
def buildCreateRequest (res : IAnswers) : ICreateStoryRequest :=
  { name := res.title
    description := res.description
    owner_ids := match res.owner with
      | none => none
      | some o => some [o]
    project_id := parseInt10 res.project
    epic_id := res.epic
    labels := match res.labels with
      | none => none
      | some lab => some [lab]
    story_type := res.storyType }

/-- Modelled from the spec: the `CreatedStory` returned by the external
creation API, `{id, name, storyType}` (spec §3); the code reads
`story.id`, `story.name`, `story.story_type`. -/
structure IStory where
  id : Nat
  name : String
  story_type : String
deriving DecidableEq

/-- Modelled from the spec: the error object of a rejected creation call
carries a response payload, read as `err.body` (`src/index.ts` line 145). -/
structure ApiError where
  body : String
deriving DecidableEq

/-- Modelled from the spec: the external `slug` package derives a URL-safe
slug from the story name — spaces become hyphens and characters outside
letters, digits and hyphens are dropped (spec §4.3 and glossary; the
package itself is not part of this repository). -/
def slugOf (s : String) : String :=
  List.asString
    ((s.toList.map (fun c => if c == ' ' then '-' else c)).filter
      (fun c => c.isAlphanum || c == '-'))

/-- The lowered slug `slug(story.name).toLowerCase()` (`src/index.ts` line 135). -/
def storySlug (story : IStory) : String :=
  List.asString (lowerChars (slugOf story.name).toList)

/-- The branch command built on success (`src/index.ts` line 136):
`git checkout -b <story_type>/ch<id>/<slug>`. -/
def gitCheckoutCmd (story : IStory) : String :=
  "git checkout -b " ++ story.story_type ++ "/ch" ++ Nat.repr story.id ++ "/" ++ storySlug story

/-- One console line, tagged by the stream/color used. -/
inductive OutputLine where
  | info (msg : String) : OutputLine
  | errorLine (msg : String) : OutputLine
deriving DecidableEq

/-- What one submission attempt leaves behind: console output, the created
story (if any), a still-raised rejection (if any), and the clipboard
write (if any). -/
structure SubmissionResult where
  output : List OutputLine
  createdStory : Option IStory
  raised : Option ApiError
  clipboard : Option String
deriving DecidableEq

/-- The submission handler's two continuations (`src/index.ts` lines
133-146): on success print the feedback lines, copy the branch command
and return the story; on rejection the `.catch` prints the notice and the
raw payload and absorbs the error (`raised := none`, no story). -/
def handleSubmission : Except ApiError IStory → SubmissionResult
  | .ok story =>
    { output := [.info ("Successfully created a story with id " ++ Nat.repr story.id),
                 .info ("You can view your story at " ++
                   "https://app.clubhouse.io/story/" ++ Nat.repr story.id),
                 .info ("To start working on this story (copied to clipboard): " ++
                   gitCheckoutCmd story)]
      createdStory := some story
      raised := none
      clipboard := some (gitCheckoutCmd story) }
  | .error err =>
    { output := [.errorLine "There was an error processing your request",
                 .errorLine err.body]
      createdStory := none
      raised := none
      clipboard := none }

/-- Observable events of the session loop `createTickets`
(`src/index.ts` lines 150-167). -/
inductive SessionEvent where
  | banner (idx : Nat) : SessionEvent
  | submitted (r : SubmissionResult) : SessionEvent
  | confirmPrompt (idx : Nat) : SessionEvent
deriving DecidableEq

/-- The session loop (`src/index.ts` lines 150-167), driven by a script
giving, per iteration, the creation API's outcome and the answer to the
"Create another ticket" confirmation: print the banner, run the
single-ticket flow (whose submission always resolves, success or absorbed
failure), show the confirmation, and recurse with `idx + 1` on yes. -/
def createTickets : Nat → List (Except ApiError IStory × Bool) → List SessionEvent
  | _, [] => []
  | idx, (res, doOneMore) :: rest =>
    .banner idx :: .submitted (handleSubmission res) :: .confirmPrompt idx ::
      (if doOneMore then createTickets (idx + 1) rest else [])

/-- Decimal digit characters of `n`, most significant first: the
specification of what `Nat.repr` produces, phrased by structural
recursion on `n / 10` for the round-trip proof. -/
def natDigitsAux (n : Nat) : List Char :=
  if h : n / 10 = 0 then [Nat.digitChar (n % 10)]
  else natDigitsAux (n / 10) ++ [Nat.digitChar (n % 10)]
termination_by n
decreasing_by exact Nat.div_lt_self (by omega) (by omega)

/-- A two-project workspace whose snapshot order disagrees with the
team-sorted display order: project 1 (team 2) is stored first, project 2
(team 1) second, and the configured default project is project 1. -/
def cexState : IClubhouseState :=
  { projects := [{ id := 1, name := "Alpha", team_id := 2 },
                 { id := 2, name := "Beta", team_id := 1 }]
    epics := [{ id := 11, name := "Epic One" }]
    teams := [{ id := 1, name := "Team One" }, { id := 2, name := "Team Two" }]
    users := [{ id := 7, profile := { name := "Ada" } }]
    sprints := [{ name := "Sprint 1" }]
    configuration := { token := "tok", defaultProjectId := 1 } }

/-- A concrete validated answer set selecting user 7 as owner and the
sprint label "Sprint 1", for witness instantiations. -/
def sampleAnswers : IAnswers :=
  { project := "42"
    epic := "11"
    title := "Fix login flow"
    description := "The login flow drops sessions."
    storyType := "bug"
    owner := some 7
    labels := some { name := "Sprint 1" } }

/-- A concrete project whose option value round-trips through the
submission handler's `parseInt`. -/
def sampleProject : IProject :=
  { id := 42, name := "Gamma", team_id := 3 }

/-- The state `cexState` with the second team removed: project "Alpha"
references team 2, which no longer exists, so the project prompt's label
construction faults. -/
def badTeamState : IClubhouseState :=
  { cexState with teams := [{ id := 1, name := "Team One" }] }

/-! Helper lemmas. -/

theorem jsFindIndex_ge_neg_one {α : Type} (p : α → Bool) (l : List α) :
    -1 ≤ jsFindIndex p l := by
  induction l with
  | nil => simp [jsFindIndex]
  | cons a l ih =>
    rw [jsFindIndex]
    split
    · omega
    · split <;> omega

theorem jsFindIndex_eq_neg_one_iff {α : Type} (p : α → Bool) (l : List α) :
    jsFindIndex p l = -1 ↔ ∀ a ∈ l, p a = false := by
  induction l with
  | nil => simp [jsFindIndex]
  | cons a l ih =>
    rw [jsFindIndex]
    by_cases hp : p a
    · simp [hp]
    · have hb : p a = false := by simpa using hp
      rw [if_neg hp]
      by_cases hr : jsFindIndex p l = -1
      · rw [if_pos hr]
        constructor
        · intro _
          exact List.forall_mem_cons.mpr ⟨hb, ih.mp hr⟩
        · intro _
          rfl
      · rw [if_neg hr]
        have hge := jsFindIndex_ge_neg_one p l
        constructor
        · intro h; exfalso; omega
        · intro h
          exact absurd (ih.mpr (fun x hx => h x (List.mem_cons_of_mem a hx))) hr

theorem jsFindIndex_spec {α : Type} (p : α → Bool) :
    ∀ (l : List α) (i : Nat), jsFindIndex p l = (i : Int) →
      ∃ hi : i < l.length, p (l.get ⟨i, hi⟩) = true ∧
        ∀ j, ∀ hj : j < i, p (l.get ⟨j, by omega⟩) = false := by
  intro l
  induction l with
  | nil => intro i h; rw [jsFindIndex] at h; exfalso; omega
  | cons a l ih =>
    intro i h
    rw [jsFindIndex] at h
    by_cases hp : p a
    · rw [if_pos hp] at h
      have hi0 : i = 0 := by omega
      subst hi0
      exact ⟨by simp, hp, fun j hj => absurd hj (by omega)⟩
    · rw [if_neg hp] at h
      by_cases hr : jsFindIndex p l = -1
      · rw [if_pos hr] at h; exfalso; omega
      · rw [if_neg hr] at h
        have hge := jsFindIndex_ge_neg_one p l
        obtain ⟨k, hk⟩ : ∃ k : Nat, jsFindIndex p l = (k : Int) := by
          refine ⟨(jsFindIndex p l).toNat, ?_⟩
          omega
        rw [hk] at h
        have hik : i = k + 1 := by omega
        subst hik
        obtain ⟨hklt, hpk, hprev⟩ := ih k hk
        refine ⟨by simpa using Nat.succ_lt_succ hklt, by simpa using hpk, ?_⟩
        intro j hj
        match j with
        | 0 => simpa using hp
        | j + 1 =>
          have hj2 : j < k := by omega
          simpa using hprev j hj2


theorem digitChar_toNat {d : Nat} (h : d < 10) :
    (Nat.digitChar d).toNat - Char.toNat (Char.ofNat 48) = d := by
  interval_cases d <;> decide

theorem digitChar_isDigit {d : Nat} (h : d < 10) : (Nat.digitChar d).isDigit = true := by
  interval_cases d <;> decide

theorem digitsVal_append (l : List Char) (c : Char) :
    digitsVal (l ++ [c]) = digitsVal l * 10 + (c.toNat - Char.toNat (Char.ofNat 48)) := by
  simp [digitsVal, List.foldl_append]

theorem natDigitsAux_spec (n : Nat) :
    digitsVal (natDigitsAux n) = n ∧ natDigitsAux n ≠ [] ∧
      ∀ c ∈ natDigitsAux n, c.isDigit = true := by
  induction n using Nat.strong_induction_on with
  | _ n ih =>
    rw [natDigitsAux]
    by_cases h : n / 10 = 0
    · rw [dif_pos h]
      refine ⟨?_, by simp, ?_⟩
      · have hd := digitChar_toNat (d := n % 10) (by omega)
        simp only [digitsVal, List.foldl_cons, List.foldl_nil, Nat.zero_mul, Nat.zero_add]
        omega
      · intro c hc
        have : c = Nat.digitChar (n % 10) := by simpa using hc
        subst this
        exact digitChar_isDigit (by omega)
    · rw [dif_neg h]
      obtain ⟨ihv, ihne, ihd⟩ := ih (n / 10) (by omega)
      refine ⟨?_, by simp, ?_⟩
      · rw [digitsVal_append, ihv, digitChar_toNat (by omega)]
        omega
      · intro c hc
        rcases List.mem_append.mp hc with h1 | h2
        · exact ihd c h1
        · have : c = Nat.digitChar (n % 10) := by simpa using h2
          subst this
          exact digitChar_isDigit (by omega)

theorem toDigitsCore_eq_natDigitsAux :
    ∀ fuel n : Nat, ∀ ds : List Char, n < fuel →
      Nat.toDigitsCore 10 fuel n ds = natDigitsAux n ++ ds := by
  intro fuel
  induction fuel with
  | zero => intro n ds h; exact absurd h (by omega)
  | succ f ih =>
    intro n ds h
    rw [Nat.toDigitsCore]
    by_cases h10 : n / 10 = 0
    · rw [if_pos h10, natDigitsAux, dif_pos h10]
      rfl
    · have hstep : natDigitsAux n = natDigitsAux (n / 10) ++ [Nat.digitChar (n % 10)] := by
        conv_lhs => rw [natDigitsAux]
        rw [dif_neg h10]
      rw [if_neg h10, ih (n / 10) (Nat.digitChar (n % 10) :: ds) (by omega), hstep]
      simp

theorem repr_toList_eq (n : Nat) : (Nat.repr n).toList = natDigitsAux n := by
  rw [Nat.repr, Nat.toDigits, toDigitsCore_eq_natDigitsAux (n + 1) n [] (by omega)]
  simp [List.asString, String.toList]


theorem takeWhile_eq_self_of_all {p : Char → Bool} (l : List Char)
    (h : ∀ c ∈ l, p c = true) : l.takeWhile p = l := by
  induction l with
  | nil => rfl
  | cons c t ih =>
    rw [List.takeWhile_cons, h c (List.mem_cons_self c t)]
    simp only [if_true]
    rw [ih (fun d hd => h d (List.mem_cons_of_mem c hd))]

theorem isDigit_not_special {c : Char} (h : c.isDigit = true) :
    (c == ' ') = false ∧ (c == '-') = false ∧ (c == '+') = false := by
  refine ⟨?_, ?_, ?_⟩ <;>
    · rw [beq_eq_false_iff_ne]
      intro hc
      subst hc
      exact absurd h (by decide)

theorem parseInt10_repr (n : Nat) : parseInt10 (Nat.repr n) = some ((n : Nat) : Int) := by
  obtain ⟨hval, hne, hdig⟩ := natDigitsAux_spec n
  obtain ⟨c, t, hct⟩ := List.exists_cons_of_ne_nil hne
  have hcdig : c.isDigit = true := hdig c (by rw [hct]; exact List.mem_cons_self c t)
  obtain ⟨hsp, hmin, hpl⟩ := isDigit_not_special hcdig
  have hdrop : (Nat.repr n).toList.dropWhile (fun c => c == ' ') = c :: t := by
    rw [repr_toList_eq, hct, List.dropWhile_cons]
    simp [hsp]
  have htake : (c :: t).takeWhile Char.isDigit = c :: t := by
    refine takeWhile_eq_self_of_all _ ?_
    rw [← hct]
    exact hdig
  rw [parseInt10, hdrop]
  simp only [hmin, hpl, Bool.false_eq_true, if_false]
  rw [parseNatPrefix, htake]
  simp only [Option.map_some]
  rw [← hct, hval]
  rfl


theorem projectOptionOf_isSome (teams : List ITeam) (p : IProject) :
    (projectOptionOf teams p).isSome = true ↔ ∃ t ∈ teams, t.id = p.team_id := by
  simp [projectOptionOf]

theorem buildProjectOptions_isSome (teams : List ITeam) :
    ∀ ps : List IProject, (buildProjectOptions teams ps).isSome = true ↔
      ∀ p ∈ ps, ∃ t ∈ teams, t.id = p.team_id := by
  intro ps
  induction ps with
  | nil => simp [buildProjectOptions]
  | cons p ps ih =>
    cases hopt : projectOptionOf teams p with
    | none =>
      rw [buildProjectOptions, hopt]
      simp only [Option.isSome_none, Bool.false_eq_true, false_iff]
      intro hall
      have hs : (projectOptionOf teams p).isSome = true :=
        (projectOptionOf_isSome teams p).mpr (hall p (List.mem_cons_self p ps))
      rw [hopt] at hs
      exact absurd hs (by simp)
    | some copt =>
      rw [buildProjectOptions, hopt]
      simp only [Option.isSome_map']
      rw [ih]
      constructor
      · intro hall q hq
        rcases List.mem_cons.mp hq with hq1 | hq2
        · subst hq1
          exact (projectOptionOf_isSome teams q).mp (by rw [hopt]; rfl)
        · exact hall q hq2
      · intro hall q hq
        exact hall q (List.mem_cons_of_mem p hq)


/-! Claim theorems. -/

/-- C1 as stated is false: in `cexState` the configured default project
(id 1) sits at index 0 of the snapshot's stored project list, which is
what `findIndex` is evaluated over when the question is built, while in
the displayed option list (projects sorted by `team_id`) that project
sits at index 1. -/
theorem c1_default_counterexample : projectDefault cexState ≠ c1ClaimedDefault cexState := by
  decide

/-- C1 (amended): the project prompt's default selection is the index,
within `state.projects` in its stored snapshot order (not within the
team-sorted displayed option list), of the first project whose id equals
`configuration.defaultProjectId`, and `-1` when no project matches. -/
theorem c1_default_amended (s : IClubhouseState) :
    (projectDefault s = -1 ↔ ∀ p ∈ s.projects, p.id ≠ s.configuration.defaultProjectId) ∧
    ∀ i : Nat, projectDefault s = (i : Int) →
      ∃ hi : i < s.projects.length,
        (s.projects.get ⟨i, hi⟩).id = s.configuration.defaultProjectId ∧
        ∀ j, ∀ hj : j < i,
          (s.projects.get ⟨j, by omega⟩).id ≠ s.configuration.defaultProjectId := by
  constructor
  · rw [projectDefault, jsFindIndex_eq_neg_one_iff]
    simp
  · intro i h
    obtain ⟨hi, hp, hprev⟩ := jsFindIndex_spec _ _ i h
    refine ⟨hi, by simpa using hp, ?_⟩
    intro j hj
    simpa using hprev j hj

/-- Witness for C1 (amended) at `cexState`, whose default evaluates to 0:
index 0 of the stored project list holds the configured default project. -/
theorem c1_default_amended_witness :
    ∃ hi : 0 < cexState.projects.length,
      (cexState.projects.get ⟨0, hi⟩).id = cexState.configuration.defaultProjectId ∧
      ∀ j, ∀ hj : j < 0,
        (cexState.projects.get ⟨j, by omega⟩).id ≠ cexState.configuration.defaultProjectId :=
  (c1_default_amended cexState).2 0 (by decide)

/-- C2 as stated is false: evaluating the project prompt's source sorts
`state.projects` in place, so the snapshot is not left unchanged on
`cexState`, whose projects are not team-sorted. -/
theorem c2_source_counterexample : (projectSource cexState none).2 ≠ cexState := by
  decide

/-- C2 (amended): evaluating the project prompt's source permutes
`state.projects` in place (it becomes the team-sorted arrangement of the
same elements) and leaves the epics, teams, users, sprints and
configuration unchanged; the epic, owner and label sources leave the
whole state unchanged. -/
theorem c2_source_amended (s : IClubhouseState) (input : Option String) :
    List.Perm (projectSource s input).2.projects s.projects ∧
    (projectSource s input).2.epics = s.epics ∧
    (projectSource s input).2.teams = s.teams ∧
    (projectSource s input).2.users = s.users ∧
    (projectSource s input).2.sprints = s.sprints ∧
    (projectSource s input).2.configuration = s.configuration ∧
    (epicSource s input).2 = s ∧
    (ownerSource s input).2 = s ∧
    (labelSource s input).2 = s :=
  ⟨List.perm_insertionSort _ s.projects, rfl, rfl, rfl, rfl, rfl, rfl, rfl, rfl⟩

/-- C3: when the creation API rejects, the submission handler prints the
error notice followed by the raw payload, raises nothing further and
produces no story, and the session loop still reaches the "create
another?" confirmation of that iteration. -/
theorem c3_failure_absorbed (e : ApiError) (doOneMore : Bool)
    (rest : List (Except ApiError IStory × Bool)) (idx : Nat) :
    (handleSubmission (Except.error e)).output =
      [OutputLine.errorLine "There was an error processing your request",
       OutputLine.errorLine e.body] ∧
    (handleSubmission (Except.error e)).raised = none ∧
    (handleSubmission (Except.error e)).createdStory = none ∧
    SessionEvent.confirmPrompt idx ∈ createTickets idx ((Except.error e, doOneMore) :: rest) := by
  refine ⟨rfl, rfl, rfl, ?_⟩
  rw [createTickets]
  exact List.mem_cons_of_mem _ (List.mem_cons_of_mem _ (List.mem_cons_self _ _))

/-- C4: the choice resolver returns the candidates unchanged when the
query is absent; otherwise it returns a sublist (original relative order)
in which every item's name contains the query case-insensitively, and
which contains every candidate whose name does. -/
theorem c4_choice_resolver {α : Type} (L : List (ChoiceOption α)) (q : String) :
    getAutoCompleteChoices none L = L ∧
    List.Sublist (getAutoCompleteChoices (some q) L) L ∧
    (∀ item ∈ getAutoCompleteChoices (some q) L, containsCI item.name q = true) ∧
    (∀ item ∈ L, containsCI item.name q = true → item ∈ getAutoCompleteChoices (some q) L) := by
  refine ⟨rfl, List.filter_sublist L, ?_, ?_⟩
  · intro item h
    exact (List.mem_filter.mp h).2
  · intro item h hm
    exact List.mem_filter.mpr ⟨h, hm⟩

/-- Witness for C4: the matching option is kept by the resolver. -/
theorem c4_choice_resolver_witness :
    ({ name := "Fix Login Bug", value := "1" } : ChoiceOption String) ∈
      getAutoCompleteChoices (some "log") [{ name := "Fix Login Bug", value := "1" }] :=
  (c4_choice_resolver [{ name := "Fix Login Bug", value := "1" }] "log").2.2.2
    { name := "Fix Login Bug", value := "1" } (by decide) (by decide)

/-- C5: the request's `owner_ids` is `null` exactly when the owner answer
is the "Do not assign" sentinel, and otherwise the one-element collection
holding the selected user's id. -/
theorem c5_owner_sentinel (res : IAnswers) :
    ((buildCreateRequest res).owner_ids = none ↔ res.owner = none) ∧
    ∀ uid : Nat, res.owner = some uid → (buildCreateRequest res).owner_ids = some [uid] := by
  constructor
  · cases h : res.owner <;> simp [buildCreateRequest, h]
  · intro uid h
    simp [buildCreateRequest, h]

/-- Witness for C5: answers selecting user 7 yield `owner_ids = [7]`. -/
theorem c5_owner_sentinel_witness : (buildCreateRequest sampleAnswers).owner_ids = some [7] :=
  (c5_owner_sentinel sampleAnswers).2 7 rfl

/-- C6: the request's `labels` is `null` exactly when the label answer is
the "No Label" sentinel, and otherwise the one-element collection holding
the `{name}` object of the selected sprint. -/
theorem c6_label_sentinel (res : IAnswers) :
    ((buildCreateRequest res).labels = none ↔ res.labels = none) ∧
    ∀ lab : ICreateLabel, res.labels = some lab →
      (buildCreateRequest res).labels = some [lab] := by
  constructor
  · cases h : res.labels <;> simp [buildCreateRequest, h]
  · intro lab h
    simp [buildCreateRequest, h]

/-- Witness for C6: answers selecting sprint "Sprint 1" yield
`labels = [{name := "Sprint 1"}]`. -/
theorem c6_label_sentinel_witness :
    (buildCreateRequest sampleAnswers).labels = some [{ name := "Sprint 1" }] :=
  (c6_label_sentinel sampleAnswers).2 { name := "Sprint 1" } rfl

/-- C7: the title validator accepts exactly the strings of length 5-120
inclusive and rejects any other length with a violation message. -/
theorem c7_title_validator (s : String) :
    (validateTitle (some s) = ValidationResult.ok ↔ 5 ≤ s.length ∧ s.length ≤ 120) ∧
    (s.length ≤ 4 ∨ 121 ≤ s.length →
      ∃ msg, validateTitle (some s) = ValidationResult.violation msg) := by
  by_cases h1 : s.length < 5
  · constructor
    · rw [validateTitle, if_pos h1]
      constructor
      · intro h
        exact ValidationResult.noConfusion h
      · intro h
        exact absurd h1 (by omega)
    · intro _
      exact ⟨"Title should be more than 5 characters long", by rw [validateTitle, if_pos h1]⟩
  · by_cases h2 : s.length > 120
    · constructor
      · rw [validateTitle, if_neg h1, if_pos h2]
        constructor
        · intro h
          exact ValidationResult.noConfusion h
        · intro h
          exact absurd h2 (by omega)
      · intro _
        exact ⟨"Title should not be longer than 120 characters",
          by rw [validateTitle, if_neg h1, if_pos h2]⟩
    · constructor
      · rw [validateTitle, if_neg h1, if_neg h2]
        exact iff_of_true rfl (by omega)
      · intro hyp
        exact absurd hyp (by omega)

/-- Witness for C7: a four-character title is rejected. -/
theorem c7_title_validator_witness :
    ∃ msg, validateTitle (some "abcd") = ValidationResult.violation msg :=
  (c7_title_validator "abcd").2 (Or.inl (by decide))

/-- C8: the branch command is "git checkout -b " followed by the story
type, "/ch", the id, "/" and the lowercased URL-safe slug of the story
name; on `{name := "Fix Login Bug", story_type := "bug", id := 42}` it is
exactly "git checkout -b bug/ch42/fix-login-bug". -/
theorem c8_branch_command (story : IStory) :
    gitCheckoutCmd story =
      "git checkout -b " ++ story.story_type ++ "/ch" ++ Nat.repr story.id ++ "/" ++
        storySlug story ∧
    gitCheckoutCmd { id := 42, name := "Fix Login Bug", story_type := "bug" } =
      "git checkout -b bug/ch42/fix-login-bug" :=
  ⟨rfl, by decide⟩

/-- C9: a project option's value is the decimal string of the project id
and the submission handler parses it back with base-10 parsing, so the
request's `project_id` is exactly the selected project's id. -/
theorem c9_project_id_roundtrip (p : IProject) (res : IAnswers)
    (h : res.project = projectChoiceValue p) :
    (buildCreateRequest res).project_id = some ((p.id : Nat) : Int) := by
  rw [buildCreateRequest]
  simp only [h, projectChoiceValue]
  exact parseInt10_repr p.id

/-- Witness for C9 at project id 42. -/
theorem c9_project_id_roundtrip_witness :
    (buildCreateRequest sampleAnswers).project_id = some ((42 : Nat) : Int) :=
  c9_project_id_roundtrip sampleProject sampleAnswers (by decide)

/-- C10: building the project option labels succeeds exactly when every
project's `team_id` is the id of some team in the snapshot; on
`badTeamState`, where project "Alpha" references a missing team, the
construction faults. -/
theorem c10_team_lookup_total (s : IClubhouseState) :
    ((projectSource s none).1.isSome = true ↔
      ∀ p ∈ s.projects, ∃ t ∈ s.teams, t.id = p.team_id) ∧
    (projectSource badTeamState none).1 = none := by
  constructor
  · have hperm := List.perm_insertionSort
      (fun p q : IProject => p.team_id ≤ q.team_id) s.projects
    rw [projectSource]
    simp only [Option.isSome_map']
    rw [buildProjectOptions_isSome]
    constructor
    · intro hall p hp
      exact hall p (hperm.mem_iff.mpr hp)
    · intro hall p hp
      exact hall p (hperm.mem_iff.mp hp)
  · decide

end Clubhouse
